import Mathlib

/-
Shallow embedding of `square_skill_api/models/prediction.py`.

Modelling conventions:
* Python `float` scores are modelled as `ℚ`: the source never does arithmetic
  on them, it only stores and compares them, and `ℚ` carries the same linear
  order on the values the program handles.
* pydantic `BaseModel` classes become Lean structures; pydantic field defaults
  become structure-field defaults.
* Raised Python exceptions become `Except PyErr`; a function that cannot raise
  stays pure.
* A Python `dict` payload that may lack a key is modelled with `Option` fields;
  subscripting a possibly-missing key goes through `pyGet`, which raises
  `KeyError` (resp. `IndexError` for positional access) exactly where the
  source would.
* `sorted(v, key=k, reverse=True)` is Python's stable sort in descending key
  order.  `List.insertionSort` with the reflexive-total relation
  "key a ≥ key b (lexicographically)" computes the stable sort for that
  preorder, hence the same list.
-/

/-- Python exceptions raised by the source. -/
inductive PyErr where
  | typeError
  | keyError
  | indexError
  | valueError
  | assertionError
deriving DecidableEq

/-- Subscript access `d["k"]` / `l[i]` on a value that may be absent:
returns the value or raises the given error. -/
def pyGet {α : Type} (e : PyErr) : Option α → Except PyErr α
  | some a => .ok a
  | none => .error e

/-- Truncating three-way zip, as Python's builtin `zip` over three iterables. -/
def zip3 {α β γ : Type} : List α → List β → List γ → List (α × β × γ)
  | a :: as, b :: bs, c :: cs => (a, b, c) :: zip3 as bs cs
  | _, _, _ => []

/-- Iterating a list of `Except` producers, failing at the first error:
the effect of a Python `for` loop whose body may raise, collecting results. -/
def exceptMapList {ε α β : Type} (f : α → Except ε β) : List α → Except ε (List β)
  | [] => .ok []
  | x :: xs => do
    let y ← f x
    let ys ← exceptMapList f xs
    pure (y :: ys)

/-- `PredictionOutput` (lines 5-11): the model's output string and its score. -/
structure PredictionOutput where
  output : String
  output_score : ℚ
deriving DecidableEq

/-- `PredictionDocument` (lines 14-27); the `:=` defaults are the pydantic
field defaults (`span` is `Optional` with no default, which pydantic v1 reads
as default `None`). -/
structure PredictionDocument where
  index : String := ""
  document_id : String := ""
  document : String
  span : Option (List Int) := none
  url : String := ""
  source : String := ""
  document_score : ℚ := 0
deriving DecidableEq

/-- `Prediction` (lines 30-46). -/
structure Prediction where
  prediction_score : ℚ
  prediction_output : PredictionOutput
  prediction_documents : List PredictionDocument := []
deriving DecidableEq

/-- `QueryOutput` (lines 49-56): the stored field; the validator that sorts it
is modelled by `QueryOutput.ofPredictions` below, which is the only
construction path the Python class exposes. -/
structure QueryOutput where
  predictions : List Prediction
deriving DecidableEq

/-- A loosely-typed document record, as consulted by the `dict` branch of
`sort_predictions_key`: only `document_score` is read there, with
`.get("document_score", 1)`, so the key may be absent. -/
structure DocDict where
  document : String
  document_score : Option ℚ
deriving DecidableEq

/-- A loosely-typed prediction record for the `dict` branch of
`sort_predictions_key`.  `Option` marks keys the record may lack; the source
reads them with `p["..."]`, which raises `KeyError` when absent. -/
structure PredDict where
  prediction_score : Option ℚ
  prediction_documents : Option (List DocDict)
deriving DecidableEq

/-- The argument of the duck-typed `sort_predictions_key` (lines 58-70):
a `Prediction` instance, a `dict`, or any other Python value (`other`). -/
inductive SortKeyArg where
  | pred (p : Prediction)
  | dict (d : PredDict)
  | other
deriving DecidableEq

/-- `QueryOutput.sort_predictions_key` (lines 58-71).  In the `Prediction`
branch the source writes `getattr(p.prediction_documents[0], "document_score", 1)`;
the attribute always exists on a `PredictionDocument`, so the `getattr`
default is dead.  In the `dict` branch `p["prediction_score"]` and
`p["prediction_documents"]` raise `KeyError` when absent, and
`[0].get("document_score", 1)` defaults to 1. -/
def QueryOutput.sort_predictions_key (p : SortKeyArg) : Except PyErr (ℚ × ℚ) :=
  match p with
  | .pred p =>
      let answer_score := p.prediction_score
      let document_score : ℚ :=
        match p.prediction_documents with
        | [] => 1
        | d :: _ => d.document_score
      .ok (document_score, answer_score)
  | .dict p => do
      let answer_score ← pyGet .keyError p.prediction_score
      let docs ← pyGet .keyError p.prediction_documents
      let document_score : ℚ :=
        match docs with
        | [] => 1
        | d :: _ => d.document_score.getD 1
      .ok (document_score, answer_score)
  | .other => .error .typeError

/-- The ranking key restricted to actual `Prediction` values, on which
`sort_predictions_key` never raises: `(first-document-score-or-1,
prediction_score)`. -/
def Prediction.key (p : Prediction) : ℚ × ℚ :=
  match p.prediction_documents with
  | [] => (1, p.prediction_score)
  | d :: _ => (d.document_score, p.prediction_score)

/-- Lexicographic `x ≥ y` on key pairs: Python's descending tuple order. -/
def keyGE (x y : ℚ × ℚ) : Prop :=
  y.1 < x.1 ∨ (x.1 = y.1 ∧ y.2 ≤ x.2)

instance : DecidableRel keyGE := fun x y => by
  unfold keyGE; infer_instance

/-- "`a` may be placed before `b`" in the descending sort of predictions. -/
def predGE (a b : Prediction) : Prop := keyGE a.key b.key

instance : DecidableRel predGE := fun a b => by
  unfold predGE; infer_instance

/-- `QueryOutput.sort_predictions` (lines 74-76):
`sorted(v, key=cls.sort_predictions_key, reverse=True)`.  Python's sort is
stable; `insertionSort` with `predGE` computes the stable sort for this total
preorder, hence the identical list. -/
def QueryOutput.sort_predictions (v : List Prediction) : List Prediction :=
  v.insertionSort predGE

/-- Construction of a `QueryOutput` from a predictions list.  pydantic runs
the `sort_predictions` validator on the field whenever the class is
instantiated, so every construction path goes through this sort. -/
def QueryOutput.ofPredictions (predictions : List Prediction) : QueryOutput :=
  { predictions := QueryOutput.sort_predictions predictions }

/-- The `context` argument of the fan-out helper and of
`from_sequence_classification`, annotated `Union[None, str, List[str]]`;
`other` stands for a Python value outside the annotated union (the annotation
is not enforced at runtime, and the helper dispatches on `isinstance`). -/
inductive CtxArg where
  | none
  | str (s : String)
  | list (l : List String)
  | other
deriving DecidableEq

/-- `QueryOutput._prediction_documents_iter_from_context` (lines 78-100)
(leading underscore dropped: not a legal Lean name).  The generators for the
`None`/`str` cases are materialized: they are consumed exactly once by the
caller's `zip`. -/
def QueryOutput.prediction_documents_iter_from_context (iter_len : Nat)
    (context : CtxArg) : Except PyErr (List (List PredictionDocument)) :=
  match context with
  | .none => .ok (List.replicate iter_len [])
  | .str context => .ok (List.replicate iter_len [{ document := context }])
  | .list context =>
      if context.length ≠ iter_len then .error .valueError
      else .ok (context.map fun c => [{ document := c }])
  | .other => .error .typeError

/-- One answer record of the question-answering payload:
`{"answer": str, "score": float, "start": int, "end": int}` (`end` is a Lean
keyword, hence `end_`). -/
structure Answer where
  answer : String
  score : ℚ
  start : Int
  end_ : Int
deriving DecidableEq

/-- The value found under `model_api_output["model_outputs"]`; `logits` is
`Option` because the key may be absent. -/
structure ModelOutputs where
  logits : Option (List (List ℚ))
deriving DecidableEq

/-- The raw `model_api_output` dict: each adapter reads one top-level key,
which may be absent. -/
structure ModelAPIOutput where
  model_outputs : Option ModelOutputs
  answers : Option (List (List Answer))
deriving DecidableEq

/-- `QueryOutput.from_sequence_classification` (lines 102-133). -/
def QueryOutput.from_sequence_classification (answers : List String)
    (model_api_output : ModelAPIOutput) (context : CtxArg) :
    Except PyErr QueryOutput := do
  let prediction_documents_iter ←
    QueryOutput.prediction_documents_iter_from_context answers.length context
  let model_outputs ← pyGet .keyError model_api_output.model_outputs
  let logits ← pyGet .keyError model_outputs.logits
  let predictions_scores ← pyGet .indexError logits[0]?
  let predictions :=
    (zip3 predictions_scores answers prediction_documents_iter).map fun t =>
      { prediction_score := t.1
        prediction_output := { output := t.2.1, output_score := t.1 }
        prediction_documents := t.2.2 : Prediction }
  pure (QueryOutput.ofPredictions predictions)

/-- The `context` argument of `from_question_answering`, restricted to its
annotation `Union[None, str, List[str]]`: the adapter has no `isinstance`
guard of its own for other shapes, whose behaviour (pydantic string coercion
of arbitrary values) is outside this model. -/
inductive QACtx where
  | none
  | str (s : String)
  | list (l : List String)
deriving DecidableEq

/-- The `context_score` argument, annotation `Union[None, float, List[float]]`. -/
inductive CtxScore where
  | none
  | num (x : ℚ)
  | list (l : List ℚ)
deriving DecidableEq

/-- Lines 147-153 of `from_question_answering`: the per-passage resolution of
`(context_doc_i, context_score_i)` for outer index `i`.  When `context` is a
list the source first asserts `isinstance(context_score, list)`, then indexes
both. -/
def QueryOutput.resolve_context (context : QACtx) (context_score : CtxScore)
    (i : Nat) : Except PyErr (String × CtxScore) :=
  match context with
  | .list context =>
      match context_score with
      | .list context_score => do
          let context_doc_i ← pyGet .indexError context[i]?
          let context_score_i ← pyGet .indexError context_score[i]?
          pure (context_doc_i, .num context_score_i)
      | _ => .error .assertionError
  | .none => .ok ("", .num 1)
  | .str context => .ok (context, context_score)

/-- Lines 155-183: build one `Prediction` from one answer record.  The source
constructs the document as
`PredictionDocument(document=..., span=[start, end], score=context_score_i)`:
`PredictionDocument` has no field named `score`, and pydantic v1 silently
discards the unknown keyword, so `document_score` keeps its default `0` and
`context_score_i` is never used. -/
def QueryOutput.qa_prediction (context_doc_i : String)
    (context_score_i : CtxScore) (answer : Answer) : Prediction :=
  let answer_str := if answer.answer = "" then "No answer found." else answer.answer
  let answer_score := answer.score
  let prediction_score := answer_score
  let prediction_output : PredictionOutput :=
    { output := answer_str, output_score := answer_score }
  let prediction_documents : List PredictionDocument :=
    if context_doc_i ≠ "" then
      [{ document := context_doc_i, span := some [answer.start, answer.end_] }]
    else []
  { prediction_score := prediction_score
    prediction_output := prediction_output
    prediction_documents := prediction_documents }

/-- `QueryOutput.from_question_answering` (lines 135-185). -/
def QueryOutput.from_question_answering (model_api_output : ModelAPIOutput)
    (context : QACtx) (context_score : CtxScore) : Except PyErr QueryOutput := do
  let answers_outer ← pyGet .keyError model_api_output.answers
  let predictionss ← exceptMapList
    (fun ia : Nat × List Answer => do
      let resolved ← QueryOutput.resolve_context context context_score ia.1
      pure (ia.2.map (QueryOutput.qa_prediction resolved.1 resolved.2)))
    answers_outer.enum
  pure (QueryOutput.ofPredictions predictionss.flatten)

/-- The record ("dict") form of a `PredictionDocument`, with every field name
present. -/
def PredictionDocument.toDict (d : PredictionDocument) : DocDict :=
  { document := d.document, document_score := some d.document_score }

/-- The record ("dict") form of a `Prediction`: the equivalent mapping with
the same field names. -/
def Prediction.toDict (p : Prediction) : PredDict :=
  { prediction_score := some p.prediction_score
    prediction_documents := some (p.prediction_documents.map PredictionDocument.toDict) }

/-- `PredictionDocument(document=c)`: only the text is given, every other
field takes its pydantic default. -/
def bareDoc (c : String) : PredictionDocument :=
  { index := "", document_id := "", document := c, span := none
    url := "", source := "", document_score := 0 }

deriving instance DecidableEq for Except

/- Concrete sample values, used to instantiate the theorems below. -/

def predYes : Prediction :=
  { prediction_score := 9, prediction_output := { output := "yes", output_score := 9 } }

def predNo : Prediction :=
  { prediction_score := 1, prediction_output := { output := "no", output_score := 1 } }

def outSeqW : ModelAPIOutput :=
  { model_outputs := some { logits := some [[9, 1]] }, answers := Option.none }

def qoSeqW : QueryOutput := { predictions := [predYes, predNo] }

def outC3 : ModelAPIOutput :=
  { model_outputs := Option.none
    answers := some [[{ answer := "", score := mkRat 1 2, start := 0, end_ := 0 }]] }

def docC3 : PredictionDocument :=
  { index := "", document_id := "", document := "ctx", span := some [0, 0]
    url := "", source := "", document_score := 0 }

def predC3 : Prediction :=
  { prediction_score := mkRat 1 2
    prediction_output := { output := "No answer found.", output_score := mkRat 1 2 }
    prediction_documents := [docC3] }

def qoC3 : QueryOutput := { predictions := [predC3] }

def outC7 : ModelAPIOutput :=
  { model_outputs := Option.none
    answers := some [[{ answer := "a", score := mkRat 1 2, start := 0, end_ := 0 }]] }

def docC7 : PredictionDocument :=
  { index := "", document_id := "", document := "c", span := some [0, 0]
    url := "", source := "", document_score := 0 }

def predC7 : Prediction :=
  { prediction_score := mkRat 1 2
    prediction_output := { output := "a", output_score := mkRat 1 2 }
    prediction_documents := [docC7] }

def qoC7 : QueryOutput := { predictions := [predC7] }

def docC2W : PredictionDocument := { document := "d", document_score := 7 }

def predC2W : Prediction :=
  { prediction_score := 5, prediction_output := { output := "x", output_score := 5 }
    prediction_documents := [docC2W] }

def outEmptyW : ModelAPIOutput := { model_outputs := Option.none, answers := Option.none }

def outNoLogitsW : ModelAPIOutput :=
  { model_outputs := some { logits := Option.none }, answers := Option.none }

def outRowShortW : ModelAPIOutput :=
  { model_outputs := some { logits := some [[5]] }, answers := Option.none }

def predDocZeroW : Prediction :=
  { prediction_score := 100, prediction_output := { output := "z", output_score := 100 }
    prediction_documents := [{ document := "d", document_score := 0 }] }

def predNoDocW : Prediction :=
  { prediction_score := 0, prediction_output := { output := "n", output_score := 0 } }

def vC10W : List Prediction := [predDocZeroW, predNoDocW]

def iC10W : Fin ((QueryOutput.ofPredictions vC10W).predictions.length) := ⟨0, by decide⟩

def jC10W : Fin ((QueryOutput.ofPredictions vC10W).predictions.length) := ⟨1, by decide⟩

theorem ok_bind {ε α β : Type} (a : α) (f : α → Except ε β) :
    (Except.ok a >>= f : Except ε β) = f a := rfl

theorem error_bind {ε α β : Type} (e : ε) (f : α → Except ε β) :
    (Except.error e >>= f : Except ε β) = .error e := rfl

theorem pure_eq_ok {ε α : Type} (a : α) : (pure a : Except ε α) = .ok a := rfl

theorem except_bind_ok {ε α β : Type} {e : Except ε α} {f : α → Except ε β} {b : β}
    (h : (e >>= f) = .ok b) : ∃ a, e = .ok a ∧ f a = .ok b := by
  cases e with
  | ok a => exact ⟨a, rfl, h⟩
  | error er => rw [error_bind] at h; cases h

instance : IsTotal Prediction predGE where
  total a b := by
    unfold predGE keyGE
    rcases lt_trichotomy a.key.1 b.key.1 with h | h | h
    · exact Or.inr (Or.inl h)
    · rcases le_total b.key.2 a.key.2 with h2 | h2
      · exact Or.inl (Or.inr ⟨h, h2⟩)
      · exact Or.inr (Or.inr ⟨h.symm, h2⟩)
    · exact Or.inl (Or.inl h)

instance : IsTrans Prediction predGE where
  trans a b c hab hbc := by
    unfold predGE keyGE at *
    rcases hab with h1 | ⟨h1, h1'⟩ <;> rcases hbc with h2 | ⟨h2, h2'⟩
    · exact Or.inl (by linarith)
    · exact Or.inl (by linarith)
    · exact Or.inl (by linarith)
    · exact Or.inr ⟨by linarith, by linarith⟩

theorem sort_predictions_sorted (v : List Prediction) :
    (QueryOutput.sort_predictions v).Sorted predGE :=
  List.sorted_insertionSort predGE v

theorem sort_predictions_perm (v : List Prediction) :
    (QueryOutput.sort_predictions v).Perm v :=
  List.perm_insertionSort predGE v

theorem ofPredictions_sorted (v : List Prediction) :
    ((QueryOutput.ofPredictions v).predictions).Sorted predGE :=
  sort_predictions_sorted v

theorem ofPredictions_perm (v : List Prediction) :
    ((QueryOutput.ofPredictions v).predictions).Perm v :=
  sort_predictions_perm v

theorem zip3_length {α β γ : Type} (as : List α) : ∀ (bs : List β) (cs : List γ),
    (zip3 as bs cs).length = min as.length (min bs.length cs.length) := by
  induction as with
  | nil => intro bs cs; simp [zip3]
  | cons a as ih =>
    intro bs cs
    cases bs with
    | nil => simp [zip3]
    | cons b bs =>
      cases cs with
      | nil => simp [zip3]
      | cons c cs => simp [zip3, ih]; omega

theorem prediction_documents_iter_length {n : Nat} {context : CtxArg}
    {docs : List (List PredictionDocument)}
    (h : QueryOutput.prediction_documents_iter_from_context n context = .ok docs) :
    docs.length = n := by
  cases context with
  | none =>
    simp only [QueryOutput.prediction_documents_iter_from_context] at h
    cases h; simp
  | str s =>
    simp only [QueryOutput.prediction_documents_iter_from_context] at h
    cases h; simp
  | list l =>
    simp only [QueryOutput.prediction_documents_iter_from_context] at h
    split at h
    · cases h
    · cases h
      next hne => simpa using of_not_not hne
  | other =>
    simp only [QueryOutput.prediction_documents_iter_from_context] at h
    cases h

theorem exceptMapList_ok_mem {ε α β : Type} {f : α → Except ε β} :
    ∀ {l : List α} {ys : List β}, exceptMapList f l = .ok ys →
      ∀ y ∈ ys, ∃ x, x ∈ l ∧ f x = .ok y := by
  intro l
  induction l with
  | nil =>
    intro ys h y hy
    simp only [exceptMapList] at h
    cases h
    cases hy
  | cons x xs ih =>
    intro ys h y hy
    simp only [exceptMapList] at h
    obtain ⟨b, hb, h⟩ := except_bind_ok h
    obtain ⟨bs, hbs, h⟩ := except_bind_ok h
    rw [pure_eq_ok] at h
    cases h
    rcases List.mem_cons.mp hy with rfl | hy
    · exact ⟨x, List.mem_cons_self x xs, hb⟩
    · obtain ⟨x2, hx2, hfx2⟩ := ih hbs y hy
      exact ⟨x2, List.mem_cons_of_mem x hx2, hfx2⟩

theorem exceptMapList_ok_of_forall {ε α β : Type} {f : α → Except ε β} :
    ∀ {l : List α}, (∀ x ∈ l, ∃ y, f x = .ok y) →
      ∃ ys, exceptMapList f l = .ok ys := by
  intro l
  induction l with
  | nil => intro _; exact ⟨[], rfl⟩
  | cons x xs ih =>
    intro hall
    obtain ⟨y, hy⟩ := hall x (List.mem_cons_self x xs)
    obtain ⟨ys, hys⟩ := ih fun z hz => hall z (List.mem_cons_of_mem x hz)
    exact ⟨y :: ys, by simp only [exceptMapList, hy, ok_bind, hys, pure_eq_ok]⟩

theorem from_sequence_classification_ok_shape {answers : List String}
    {out : ModelAPIOutput} {context : CtxArg} {qo : QueryOutput}
    (h : QueryOutput.from_sequence_classification answers out context = .ok qo) :
    ∃ v, qo = QueryOutput.ofPredictions v := by
  unfold QueryOutput.from_sequence_classification at h
  obtain ⟨docs, _, h⟩ := except_bind_ok h
  obtain ⟨mo, _, h⟩ := except_bind_ok h
  obtain ⟨lg, _, h⟩ := except_bind_ok h
  obtain ⟨row, _, h⟩ := except_bind_ok h
  rw [pure_eq_ok] at h
  cases h
  exact ⟨_, rfl⟩

theorem from_question_answering_ok_mem {out : ModelAPIOutput} {c : QACtx}
    {cs : CtxScore} {qo : QueryOutput}
    (h : QueryOutput.from_question_answering out c cs = .ok qo) :
    ∃ v, qo = QueryOutput.ofPredictions v ∧
      ∀ p ∈ v, ∃ d s a, p = QueryOutput.qa_prediction d s a := by
  unfold QueryOutput.from_question_answering at h
  obtain ⟨ao, _, h⟩ := except_bind_ok h
  obtain ⟨lss, hlss, h⟩ := except_bind_ok h
  rw [pure_eq_ok] at h
  cases h
  refine ⟨lss.flatten, rfl, ?_⟩
  intro p hp
  rcases List.mem_flatten.mp hp with ⟨l, hl, hpl⟩
  obtain ⟨x, _, hfx⟩ := exceptMapList_ok_mem hlss l hl
  obtain ⟨r, _, hfx⟩ := except_bind_ok hfx
  rw [pure_eq_ok] at hfx
  cases hfx
  rcases List.mem_map.mp hpl with ⟨a, _, rfl⟩
  exact ⟨r.1, r.2, a, rfl⟩

theorem from_sequence_classification_eval {answers : List String}
    {out : ModelAPIOutput} {context : CtxArg} {mo : ModelOutputs}
    {ls : List (List ℚ)} {row : List ℚ} {docs : List (List PredictionDocument)}
    (h1 : out.model_outputs = some mo) (h2 : mo.logits = some ls)
    (h3 : ls[0]? = some row)
    (h5 : QueryOutput.prediction_documents_iter_from_context answers.length context =
      .ok docs) :
    QueryOutput.from_sequence_classification answers out context =
      .ok (QueryOutput.ofPredictions ((zip3 row answers docs).map fun t =>
        { prediction_score := t.1
          prediction_output := { output := t.2.1, output_score := t.1 }
          prediction_documents := t.2.2 : Prediction })) := by
  simp only [QueryOutput.from_sequence_classification, h5, ok_bind, h1, h2, h3, pyGet,
    pure_eq_ok]

/-- C1: every `QueryOutput` — built directly from a list of `Prediction`s via
the validated construction path `ofPredictions`, or by either adapter
constructor — stores `predictions` sorted in descending order of the key
`(first-document-score-or-1, prediction_score)` (`predGE`); the sorting
validator runs at construction time on every path, so it cannot be bypassed. -/
theorem C1_predictions_always_sorted :
    (∀ v : List Prediction,
      ((QueryOutput.ofPredictions v).predictions).Sorted predGE) ∧
    (∀ (answers : List String) (out : ModelAPIOutput) (context : CtxArg)
      (qo : QueryOutput),
      QueryOutput.from_sequence_classification answers out context = .ok qo →
      qo.predictions.Sorted predGE) ∧
    (∀ (out : ModelAPIOutput) (c : QACtx) (cs : CtxScore) (qo : QueryOutput),
      QueryOutput.from_question_answering out c cs = .ok qo →
      qo.predictions.Sorted predGE) := by
  refine ⟨fun v => ofPredictions_sorted v, ?_, ?_⟩
  · intro answers out context qo h
    obtain ⟨v, rfl⟩ := from_sequence_classification_ok_shape h
    exact ofPredictions_sorted v
  · intro out c cs qo h
    obtain ⟨v, rfl, _⟩ := from_question_answering_ok_mem h
    exact ofPredictions_sorted v

theorem C1_witness : qoSeqW.predictions.Sorted predGE :=
  C1_predictions_always_sorted.2.1 ["yes", "no"] outSeqW .none qoSeqW (by decide)

/-- C2: on a `Prediction` the ranking key is
`(first-document-score-or-1, prediction_score)`; the equivalent mapping with
the same field names yields the same key; any other shape raises `TypeError`. -/
theorem C2_sort_predictions_key_contract :
    (∀ p : Prediction,
      (p.prediction_documents = [] →
        QueryOutput.sort_predictions_key (.pred p) = .ok (1, p.prediction_score)) ∧
      (∀ d ds, p.prediction_documents = d :: ds →
        QueryOutput.sort_predictions_key (.pred p) =
          .ok (d.document_score, p.prediction_score)) ∧
      QueryOutput.sort_predictions_key (.dict p.toDict) =
        QueryOutput.sort_predictions_key (.pred p)) ∧
    QueryOutput.sort_predictions_key .other = .error .typeError := by
  refine ⟨fun p => ⟨?_, ?_, ?_⟩, rfl⟩
  · intro h
    simp [QueryOutput.sort_predictions_key, h]
  · intro d ds h
    simp [QueryOutput.sort_predictions_key, h]
  · cases hd : p.prediction_documents with
    | nil =>
      simp [QueryOutput.sort_predictions_key, Prediction.toDict, pyGet, hd, ok_bind]
    | cons d ds =>
      simp [QueryOutput.sort_predictions_key, Prediction.toDict, pyGet, hd, ok_bind,
        PredictionDocument.toDict]

theorem C2_witness :
    QueryOutput.sort_predictions_key (.pred predC2W) = .ok (7, 5) ∧
    QueryOutput.sort_predictions_key (.dict predC2W.toDict) =
      QueryOutput.sort_predictions_key (.pred predC2W) :=
  ⟨(C2_sort_predictions_key_contract.1 predC2W).2.1 docC2W [] (by decide),
   (C2_sort_predictions_key_contract.1 predC2W).2.2⟩

/-- C4: the context fan-out helper produces one document list per answer —
`none` gives `n` empty lists; a single text gives `n` singleton lists sharing
that text as a default-filled document (no span, default score 0); a list of
exactly `n` texts gives `n` positional singleton lists; a list of any other
length raises `ValueError`; any other shape raises `TypeError`. -/
theorem C4_fanout_contract (n : Nat) (s : String) (l : List String) :
    QueryOutput.prediction_documents_iter_from_context n .none =
      .ok (List.replicate n []) ∧
    QueryOutput.prediction_documents_iter_from_context n (.str s) =
      .ok (List.replicate n [bareDoc s]) ∧
    (l.length = n →
      QueryOutput.prediction_documents_iter_from_context n (.list l) =
        .ok (l.map fun c => [bareDoc c])) ∧
    (l.length ≠ n →
      QueryOutput.prediction_documents_iter_from_context n (.list l) =
        .error .valueError) ∧
    QueryOutput.prediction_documents_iter_from_context n .other =
      .error .typeError := by
  refine ⟨rfl, rfl, ?_, ?_, rfl⟩
  · intro h
    simp [QueryOutput.prediction_documents_iter_from_context, h, bareDoc]
  · intro h
    simp [QueryOutput.prediction_documents_iter_from_context, h]

theorem C4_witness :
    QueryOutput.prediction_documents_iter_from_context 3 (.list ["a", "b", "c"]) =
      .ok [[bareDoc "a"], [bareDoc "b"], [bareDoc "c"]] ∧
    QueryOutput.prediction_documents_iter_from_context 3 (.list ["a", "b"]) =
      .error .valueError :=
  ⟨(C4_fanout_contract 3 "doc" ["a", "b", "c"]).2.2.1 (by decide),
   (C4_fanout_contract 3 "doc" ["a", "b"]).2.2.2.1 (by decide)⟩

/-- C3 (code bug): at the spec's QA scenario — answer text `""` with score
1/2 and span `[0, 0]`, `context = "ctx"`, `context_score = 1` — the adapter
attaches exactly one document carrying the context text and the span, but its
`document_score` is 0, not the resolved context score 1: the source passes
the score under the keyword `score`, which `PredictionDocument` does not
declare, so pydantic v1 silently discards it and the field default 0
survives. -/
theorem C3_document_score_dropped :
    QueryOutput.from_question_answering outC3 (.str "ctx") (.num 1) = .ok qoC3 ∧
    predC3.prediction_documents = [docC3] ∧
    docC3.document = "ctx" ∧ docC3.span = some [0, 0] ∧
    docC3.document_score = 0 :=
  ⟨by decide, rfl, rfl, rfl, rfl⟩

/-- C5: whenever the logits row is at least as long as `answers` and the
context argument is accepted by the fan-out helper, the
sequence-classification adapter succeeds and returns a `QueryOutput`
containing exactly the predictions built positionally from the
`(score, answer, documents)` triples — each with `output` the answer,
`output_score` and `prediction_score` the score, and the fan-out documents —
sorted by the ranking key. -/
theorem C5_from_sequence_classification_builds_predictions
    (answers : List String) (out : ModelAPIOutput) (context : CtxArg)
    (mo : ModelOutputs) (ls : List (List ℚ)) (row : List ℚ)
    (docs : List (List PredictionDocument))
    (h1 : out.model_outputs = some mo) (h2 : mo.logits = some ls)
    (h3 : ls[0]? = some row) (h4 : answers.length ≤ row.length)
    (h5 : QueryOutput.prediction_documents_iter_from_context answers.length context =
      .ok docs) :
    ∃ qo, QueryOutput.from_sequence_classification answers out context = .ok qo ∧
      qo.predictions.Perm ((zip3 row answers docs).map fun t =>
        { prediction_score := t.1
          prediction_output := { output := t.2.1, output_score := t.1 }
          prediction_documents := t.2.2 : Prediction }) ∧
      qo.predictions.Sorted predGE ∧
      qo.predictions.length = answers.length := by
  have hres := from_sequence_classification_eval h1 h2 h3 h5
  refine ⟨_, hres, ofPredictions_perm _, ofPredictions_sorted _, ?_⟩
  have hlen := (ofPredictions_perm ((zip3 row answers docs).map fun t =>
    { prediction_score := t.1
      prediction_output := { output := t.2.1, output_score := t.1 }
      prediction_documents := t.2.2 : Prediction })).length_eq
  rw [hlen, List.length_map, zip3_length]
  have hdocs := prediction_documents_iter_length h5
  omega

theorem C5_witness :
    ∃ qo, QueryOutput.from_sequence_classification ["yes", "no"] outSeqW .none =
        .ok qo ∧
      qo.predictions.Perm ((zip3 [(9 : ℚ), 1] ["yes", "no"] [[], []]).map fun t =>
        { prediction_score := t.1
          prediction_output := { output := t.2.1, output_score := t.1 }
          prediction_documents := t.2.2 : Prediction }) ∧
      qo.predictions.Sorted predGE ∧
      qo.predictions.length = 2 :=
  C5_from_sequence_classification_builds_predictions ["yes", "no"] outSeqW .none
    { logits := some [[9, 1]] } [[9, 1]] [9, 1] [[], []]
    (by decide) (by decide) (by decide) (by decide) (by decide)

/-- C6: in the question-answering adapter, every produced prediction comes
from one answer record via `qa_prediction`, and `qa_prediction` substitutes
the placeholder "No answer found." exactly when the record's answer text is
empty, leaving it unchanged otherwise, and sets both `prediction_score` and
`output_score` to the record's score. -/
theorem C6_qa_output_text_and_scores :
    (∀ (doc : String) (cs : CtxScore) (a : Answer),
      (QueryOutput.qa_prediction doc cs a).prediction_output.output =
        (if a.answer = "" then "No answer found." else a.answer) ∧
      (QueryOutput.qa_prediction doc cs a).prediction_score = a.score ∧
      (QueryOutput.qa_prediction doc cs a).prediction_output.output_score = a.score) ∧
    (∀ (out : ModelAPIOutput) (c : QACtx) (cs : CtxScore) (qo : QueryOutput),
      QueryOutput.from_question_answering out c cs = .ok qo →
      ∀ p ∈ qo.predictions, ∃ doc csv a, p = QueryOutput.qa_prediction doc csv a) := by
  refine ⟨fun doc cs a => ⟨rfl, rfl, rfl⟩, ?_⟩
  intro out c cs qo h p hp
  obtain ⟨v, rfl, hv⟩ := from_question_answering_ok_mem h
  exact hv p ((ofPredictions_perm v).subset hp)

theorem C6_witness : ∃ doc csv a, predC3 = QueryOutput.qa_prediction doc csv a :=
  C6_qa_output_text_and_scores.2 outC3 (.str "ctx") (.num 1) qoC3 (by decide) predC3
    (by decide)

/-- C7 counterexample: `context = "c"` is a single text (not a sequence)
while `context_score = [1]` is a sequence.  The claim says every such
mismatched pair fails with an error, yet the adapter succeeds and returns a
full `QueryOutput`: the non-list `context` takes the `else` branch, and the
mismatched score list only feeds the discarded `score=` keyword. -/
theorem C7_counterexample_mismatch_succeeds :
    QueryOutput.from_question_answering outC7 (.str "c") (.list [1]) = .ok qoC7 := by
  decide

/-- C7 amended: the shape handling of `context`/`context_score` in the QA
adapter is asymmetric.  If `context` is a sequence and `context_score` is not
(absent, or a single number), construction fails with an assertion error as
soon as there is at least one passage; if `context_score` is a sequence while
`context` is a single text, no error is raised and a `QueryOutput` is
produced (the mismatched score list is silently discarded).  When both are
sequences they are indexed positionally per outer passage; when `context` is
absent the resolved document text defaults to `""` and the resolved score to
1. -/
theorem C7_amended_context_shape_handling
    (cl : List String) (sl : List ℚ) (s : String) (q : ℚ) (i : Nat)
    (out : ModelAPIOutput) (a : List Answer) (rest : List (List Answer)) :
    (out.answers = some (a :: rest) →
      QueryOutput.from_question_answering out (.list cl) .none =
        .error .assertionError ∧
      QueryOutput.from_question_answering out (.list cl) (.num q) =
        .error .assertionError) ∧
    (∀ (hc : i < cl.length) (hs : i < sl.length),
      QueryOutput.resolve_context (.list cl) (.list sl) i =
        .ok (cl.get ⟨i, hc⟩, .num (sl.get ⟨i, hs⟩))) ∧
    (∀ cs, QueryOutput.resolve_context .none cs i = .ok ("", .num 1)) ∧
    (∀ ll, out.answers = some ll →
      ∃ qo, QueryOutput.from_question_answering out (.str s) (.list sl) = .ok qo) := by
  refine ⟨?_, ?_, fun cs => rfl, ?_⟩
  · intro h
    have he : (a :: rest).enum = (0, a) :: rest.enumFrom 1 := rfl
    constructor <;>
      simp only [QueryOutput.from_question_answering, h, pyGet, ok_bind, he,
        exceptMapList, QueryOutput.resolve_context, error_bind]
  · intro hc hs
    simp only [QueryOutput.resolve_context, List.getElem?_eq_getElem hc,
      List.getElem?_eq_getElem hs, pyGet, ok_bind, pure_eq_ok, List.get_eq_getElem]
  · intro ll h
    have hall : ∀ x ∈ ll.enum, ∃ y,
        (fun ia : Nat × List Answer => do
          let resolved ← QueryOutput.resolve_context (.str s) (.list sl) ia.1
          pure (ia.2.map (QueryOutput.qa_prediction resolved.1 resolved.2))) x =
          .ok y :=
      fun x _ => ⟨x.2.map (QueryOutput.qa_prediction s (.list sl)), rfl⟩
    obtain ⟨ys, hys⟩ := exceptMapList_ok_of_forall hall
    refine ⟨QueryOutput.ofPredictions ys.flatten, ?_⟩
    simp only [QueryOutput.from_question_answering, h, pyGet, ok_bind]
    rw [hys]
    rfl

theorem C7_witness :
    QueryOutput.from_question_answering outC7 (.list ["x"]) (.num 5) =
      .error .assertionError ∧
    QueryOutput.resolve_context (.list ["x"]) (.list [2]) 0 = .ok ("x", .num 2) ∧
    QueryOutput.resolve_context .none (.num 5) 0 = .ok ("", .num 1) ∧
    ∃ qo, QueryOutput.from_question_answering outC7 (.str "c") (.list [2]) = .ok qo :=
  ⟨((C7_amended_context_shape_handling ["x"] [2] "c" 5 0 outC7
      [{ answer := "a", score := mkRat 1 2, start := 0, end_ := 0 }] []).1
      (by decide)).2,
   (C7_amended_context_shape_handling ["x"] [2] "c" 5 0 outC7
      [{ answer := "a", score := mkRat 1 2, start := 0, end_ := 0 }] []).2.1
      (by decide) (by decide),
   (C7_amended_context_shape_handling ["x"] [2] "c" 5 0 outC7
      [{ answer := "a", score := mkRat 1 2, start := 0, end_ := 0 }] []).2.2.1
      (.num 5),
   (C7_amended_context_shape_handling ["x"] [2] "c" 5 0 outC7
      [{ answer := "a", score := mkRat 1 2, start := 0, end_ := 0 }] []).2.2.2
      [[{ answer := "a", score := mkRat 1 2, start := 0, end_ := 0 }]] (by decide)⟩

/-- C8: a payload missing the expected nested structure makes the adapter
fail before any `QueryOutput` is created: for sequence classification a
missing `model_outputs` key or a missing `logits` key under it yields an
error (whichever error of the taxonomy fires first), and for question
answering a missing `answers` key yields a `KeyError`; the `Except` result is
all-or-nothing. -/
theorem C8_missing_structure_aborts
    (answers : List String) (out : ModelAPIOutput) (context : CtxArg)
    (c : QACtx) (cs : CtxScore) (mo : ModelOutputs) :
    (out.model_outputs = Option.none →
      ∃ e, QueryOutput.from_sequence_classification answers out context = .error e) ∧
    (out.model_outputs = some mo → mo.logits = Option.none →
      ∃ e, QueryOutput.from_sequence_classification answers out context = .error e) ∧
    (out.answers = Option.none →
      QueryOutput.from_question_answering out c cs = .error .keyError) := by
  refine ⟨?_, ?_, ?_⟩
  · intro h
    cases h5 : QueryOutput.prediction_documents_iter_from_context answers.length
        context with
    | error e =>
      exact ⟨e, by
        simp only [QueryOutput.from_sequence_classification, h5, error_bind]⟩
    | ok docs =>
      exact ⟨.keyError, by
        simp only [QueryOutput.from_sequence_classification, h5, ok_bind, h, pyGet,
          error_bind]⟩
  · intro h hl
    cases h5 : QueryOutput.prediction_documents_iter_from_context answers.length
        context with
    | error e =>
      exact ⟨e, by
        simp only [QueryOutput.from_sequence_classification, h5, error_bind]⟩
    | ok docs =>
      exact ⟨.keyError, by
        simp only [QueryOutput.from_sequence_classification, h5, ok_bind, h, pyGet,
          hl, error_bind]⟩
  · intro h
    simp only [QueryOutput.from_question_answering, h, pyGet, error_bind]

theorem C8_witness :
    (∃ e, QueryOutput.from_sequence_classification ["a"] outEmptyW .none =
      .error e) ∧
    (∃ e, QueryOutput.from_sequence_classification ["a"] outNoLogitsW .none =
      .error e) ∧
    QueryOutput.from_question_answering outEmptyW .none .none = .error .keyError :=
  ⟨(C8_missing_structure_aborts ["a"] outEmptyW .none .none .none
      { logits := Option.none }).1 (by decide),
   (C8_missing_structure_aborts ["a"] outNoLogitsW .none .none .none
      { logits := Option.none }).2.1 (by decide) (by decide),
   (C8_missing_structure_aborts ["a"] outEmptyW .none .none .none
      { logits := Option.none }).2.2 (by decide)⟩

/-- C9 (implicit): with context absent or a single shared text, a logits row
strictly shorter than `answers` raises no error — the positional `zip`
silently truncates to the row, and the adapter returns a `QueryOutput` with
exactly one prediction per logit, dropping the trailing answers. -/
theorem C9_zip_truncates_to_logits_row
    (answers : List String) (out : ModelAPIOutput) (context : CtxArg)
    (mo : ModelOutputs) (ls : List (List ℚ)) (row : List ℚ)
    (hctx : context = .none ∨ ∃ s, context = .str s)
    (h1 : out.model_outputs = some mo) (h2 : mo.logits = some ls)
    (h3 : ls[0]? = some row) (h4 : row.length < answers.length) :
    ∃ qo, QueryOutput.from_sequence_classification answers out context = .ok qo ∧
      qo.predictions.length = row.length := by
  obtain ⟨docs, h5, hdl⟩ : ∃ docs,
      QueryOutput.prediction_documents_iter_from_context answers.length context =
        .ok docs ∧ docs.length = answers.length := by
    rcases hctx with rfl | ⟨s, rfl⟩
    · exact ⟨_, rfl, by simp⟩
    · exact ⟨_, rfl, by simp⟩
  refine ⟨_, from_sequence_classification_eval h1 h2 h3 h5, ?_⟩
  have hlen := (ofPredictions_perm ((zip3 row answers docs).map fun t =>
    { prediction_score := t.1
      prediction_output := { output := t.2.1, output_score := t.1 }
      prediction_documents := t.2.2 : Prediction })).length_eq
  rw [hlen, List.length_map, zip3_length]
  omega

theorem C9_witness :
    ∃ qo, QueryOutput.from_sequence_classification ["a", "b", "c"] outRowShortW
        .none = .ok qo ∧
      qo.predictions.length = 1 :=
  C9_zip_truncates_to_logits_row ["a", "b", "c"] outRowShortW .none
    { logits := some [[5]] } [[5]] [5] (Or.inl rfl)
    (by decide) (by decide) (by decide) (by decide)

/-- C10 (implicit): in any constructed `QueryOutput`, a prediction whose
first document carries the default `document_score` 0 is ordered after every
prediction that has no documents at all, whatever the prediction scores: the
former ranks with key `(0, _)`, the latter with `(1, _)`. -/
theorem C10_zero_doc_score_after_docless
    (v : List Prediction)
    (i j : Fin ((QueryOutput.ofPredictions v).predictions.length))
    (hi : (((QueryOutput.ofPredictions v).predictions).get i).prediction_documents =
      [])
    (d : PredictionDocument) (rest : List PredictionDocument)
    (hj : (((QueryOutput.ofPredictions v).predictions).get j).prediction_documents =
      d :: rest)
    (hd : d.document_score = 0) : (i : ℕ) < (j : ℕ) := by
  have hs := ofPredictions_sorted v
  rcases Nat.lt_trichotomy (i : ℕ) (j : ℕ) with h | h | h
  · exact h
  · exfalso
    have hij : i = j := Fin.ext h
    rw [hij, hj] at hi
    cases hi
  · exfalso
    have hrel : predGE (((QueryOutput.ofPredictions v).predictions).get j)
        (((QueryOutput.ofPredictions v).predictions).get i) :=
      List.pairwise_iff_get.mp hs j i h
    have hkj : (((QueryOutput.ofPredictions v).predictions).get j).key =
        (0, (((QueryOutput.ofPredictions v).predictions).get j).prediction_score) := by
      simp only [Prediction.key, hj, hd]
    have hki : (((QueryOutput.ofPredictions v).predictions).get i).key =
        (1, (((QueryOutput.ofPredictions v).predictions).get i).prediction_score) := by
      simp only [Prediction.key, hi]
    unfold predGE keyGE at hrel
    rw [hkj, hki] at hrel
    norm_num at hrel

theorem C10_witness :
    ((QueryOutput.ofPredictions vC10W).predictions.get iC10W).prediction_documents =
      [] ∧
    (iC10W : ℕ) < (jC10W : ℕ) :=
  ⟨by decide,
   C10_zero_doc_score_after_docless vC10W iC10W jC10W (by decide)
     { document := "d", document_score := 0 } [] (by decide) (by decide)⟩
